import Mathlib

set_option linter.unusedVariables false

/-!
Verification development for
`src/kozax/environments/SR_environments/time_series_environment_base.py`.

The file under study defines one abstract class `EnvironmentBase` with:

* `__init__(self, n_var, process_noise)` storing both arguments on `self`;
* three methods decorated `@abc.abstractmethod` whose bodies are
  `raise NotImplementedError`: `sample_init_states`, `drift`, `diffusion`;
* one concrete method `terminate_event(self, state, **kwargs)` whose body is
  `return False`.

Embedding conventions:

* A Python `raise` is modelled with `Except PyError`; a method call is a pure
  function from the receiver and the arguments to a pair of the call's outcome
  and the receiver's post-state (explicit state passing).  Since no method body
  of the source assigns to `self`, each embedded body returns the receiver it
  was given; a claim about mutation is then a theorem comparing the two states.
* Python `int` is `Int`; Python `float` appears only as a stored-and-read-back
  configuration value (`process_noise`), never in arithmetic, so it is modelled
  exactly by `Rat`.
* `jax.random.PRNGKey` is a reproducibility token the source never inspects; it
  is modelled as `Nat`.
* `jax` arrays (`state`, drift/diffusion results) are modelled as `List Rat`;
  the `args` tuple as `List Rat`.  `terminate_event` never inspects `state` or
  `kwargs` (its body is `return False`), so its embedding is polymorphic in
  both, mirroring Python duck typing.
-/

/-- Python runtime errors that can arise from this module. -/
inductive PyError where
  | notImplementedError : PyError
  | typeError : String → PyError
deriving DecidableEq, Repr

/-- Model of `jax.random.PRNGKey`: a reproducibility token; the source file
never inspects it, only threads it through. -/
abbrev PRNGKey := Nat

/-- The instance state of `EnvironmentBase`: exactly the attributes assigned in
`__init__` (lines 46-48 of the source). -/
structure EnvironmentBase where
  n_var : Int
  process_noise : Rat
deriving DecidableEq, Repr

/-- Body of `EnvironmentBase.__init__` (source lines 46-48): stores `n_var` and
`process_noise` unchanged; the body contains no check and no `raise`, so the
outcome is always `Except.ok`. -/
def EnvironmentBase.init (n_var : Int) (process_noise : Rat) :
    Except PyError EnvironmentBase :=
  Except.ok { n_var := n_var, process_noise := process_noise }

/-- `EnvironmentBase.sample_init_states` (source lines 50-67): decorated
`@abc.abstractmethod`, body `raise NotImplementedError`.  The success payload
type (`Any` in the source annotation) is taken as a batch of states. -/
def EnvironmentBase.sample_init_states (self : EnvironmentBase)
    (batch_size : Int) (key : PRNGKey) :
    Except PyError (List (List Rat)) × EnvironmentBase :=
  (Except.error PyError.notImplementedError, self)

/-- `EnvironmentBase.drift` (source lines 69-88): decorated
`@abc.abstractmethod`, body `raise NotImplementedError`. -/
def EnvironmentBase.drift (self : EnvironmentBase)
    (t : Rat) (state : List Rat) (args : List Rat) :
    Except PyError (List Rat) × EnvironmentBase :=
  (Except.error PyError.notImplementedError, self)

/-- `EnvironmentBase.diffusion` (source lines 90-109): decorated
`@abc.abstractmethod`, body `raise NotImplementedError`. -/
def EnvironmentBase.diffusion (self : EnvironmentBase)
    (t : Rat) (state : List Rat) (args : List Rat) :
    Except PyError (List Rat) × EnvironmentBase :=
  (Except.error PyError.notImplementedError, self)

/-- `EnvironmentBase.terminate_event` (source lines 111-127): concrete method,
body `return False`.  The body touches neither `state` nor `kwargs`, so the
embedding is polymorphic in both argument types, and the call cannot raise. -/
def EnvironmentBase.terminate_event {S K : Type} (self : EnvironmentBase)
    (state : S) (kwargs : K) : Except PyError Bool × EnvironmentBase :=
  (Except.ok false, self)

/-- The names of the methods of `EnvironmentBase` carrying the
`@abc.abstractmethod` decorator in the source (lines 50, 69, 90). -/
def EnvironmentBase.abstractmethods : List String :=
  ["sample_init_states", "drift", "diffusion"]

/-- Direct instantiation `EnvironmentBase(n_var, process_noise)`.  CPython's
`ABCMeta` semantics: calling a class whose set of unimplemented abstract
methods is nonempty raises `TypeError` before `__init__` runs; otherwise the
call runs `__init__`. -/
def EnvironmentBase.instantiate (n_var : Int) (process_noise : Rat) :
    Except PyError EnvironmentBase :=
  if EnvironmentBase.abstractmethods.isEmpty then
    EnvironmentBase.init n_var process_noise
  else
    Except.error (PyError.typeError
      "Cannot instantiate abstract class EnvironmentBase with abstract methods diffusion, drift, sample_init_states")

/-- Modelled from the spec: concrete environment implementations of
`sample_init_states` are not part of this repository's source; only the
abstract declaration (source lines 50-67) is.  The spec requires every
implementation to be "deterministic given the same random_state (pure function
of its inputs, no hidden generator mutation visible to the caller)".  A
concrete sampler is therefore modelled as a function that, besides
`batch_size` and the `key` token, may read and update a hidden global
generator state (`Nat`), returning the sampled batch and the post-call hidden
state. -/
structure ConcreteSampler where
  sample : Int → PRNGKey → Nat → List (List Rat) × Nat

/-- Modelled from the spec: the contract's purity requirement on a concrete
sampler — the returned batch depends only on `batch_size` and `key` (not on
the hidden generator state), and the call leaves the hidden generator state
unchanged. -/
def ConcreteSampler.Pure (s : ConcreteSampler) : Prop :=
  ∀ (batch_size : Int) (key : PRNGKey) (g g2 : Nat),
    (s.sample batch_size key g).1 = (s.sample batch_size key g2).1 ∧
    (s.sample batch_size key g).2 = g

/-- A concrete sampler used to exercise the contract: ignores the hidden
generator state and draws the batch from `batch_size` and `key` alone. -/
def constSampler : ConcreteSampler :=
  ⟨fun batch_size key g =>
    (List.replicate batch_size.toNat (List.replicate 2 (key : Rat)), g)⟩

/-- Claim C1: for every instance that has not supplied a concrete override,
invoking any of the three abstract operations `sample_init_states`, `drift`,
or `diffusion` fails fast at the point of the call with the
unimplemented-capability error (`NotImplementedError`), rather than returning
any default value. -/
theorem C1_abstract_ops_fail_fast (env : EnvironmentBase)
    (batch_size : Int) (key : PRNGKey) (t : Rat) (state args : List Rat) :
    (env.sample_init_states batch_size key).1 =
        Except.error PyError.notImplementedError ∧
    (env.drift t state args).1 = Except.error PyError.notImplementedError ∧
    (env.diffusion t state args).1 = Except.error PyError.notImplementedError :=
  ⟨rfl, rfl, rfl⟩

/-- Claim C2: the default `terminate_event` (no override) returns `False` for
every state vector — including the all-zero vector and vectors of very large
magnitude — and for every combination of extra keyword arguments (the
statement is universally quantified over the state and keyword-argument
values, and even over their types). -/
theorem C2_terminate_default_false (env : EnvironmentBase) {S K : Type}
    (state : S) (kwargs : K) :
    (env.terminate_event state kwargs).1 = Except.ok false :=
  rfl

/-- Claim C3: for all `variable_count` (`n_var`) > 0 and `process_noise` ≥ 0,
constructing an environment with those values and then reading back its
configuration attributes yields exactly the values supplied. -/
theorem C3_construct_roundtrip (n : Int) (p : Rat) (hn : 0 < n) (hp : 0 ≤ p) :
    ∃ env, EnvironmentBase.init n p = Except.ok env ∧
      env.n_var = n ∧ env.process_noise = p :=
  ⟨⟨n, p⟩, rfl, rfl, rfl⟩

/-- Witness for C3 at `n_var = 3`, `process_noise = 1/10`. -/
theorem C3_construct_roundtrip_witness :
    (0 : Int) < 3 ∧ (0 : Rat) ≤ 1/10 ∧
    ∃ env, EnvironmentBase.init 3 (1/10) = Except.ok env ∧
      env.n_var = 3 ∧ env.process_noise = 1/10 :=
  ⟨by decide, by norm_num,
    C3_construct_roundtrip 3 (1/10) (by decide) (by norm_num)⟩

/-- Claim C4: configuration is immutable after construction — after any call
of `sample_init_states`, `drift`, `diffusion`, or `terminate_event` on an
environment constructed with `n` and `p`, the post-state's `n_var` still
equals `n` and its `process_noise` still equals `p`. -/
theorem C4_config_immutable (n : Int) (p : Rat)
    (batch_size : Int) (key : PRNGKey) (t : Rat) (state args : List Rat)
    {S K : Type} (st : S) (kw : K) :
    (((EnvironmentBase.mk n p).sample_init_states batch_size key).2.n_var = n ∧
     ((EnvironmentBase.mk n p).sample_init_states batch_size key).2.process_noise = p) ∧
    (((EnvironmentBase.mk n p).drift t state args).2.n_var = n ∧
     ((EnvironmentBase.mk n p).drift t state args).2.process_noise = p) ∧
    (((EnvironmentBase.mk n p).diffusion t state args).2.n_var = n ∧
     ((EnvironmentBase.mk n p).diffusion t state args).2.process_noise = p) ∧
    (((EnvironmentBase.mk n p).terminate_event st kw).2.n_var = n ∧
     ((EnvironmentBase.mk n p).terminate_event st kw).2.process_noise = p) :=
  ⟨⟨rfl, rfl⟩, ⟨rfl, rfl⟩, ⟨rfl, rfl⟩, ⟨rfl, rfl⟩⟩

/-- Claim C5: the base constructor performs no validation — for every integer
`n_var` (zero and negative included) and every `process_noise` (negative
included), the `__init__` body succeeds without raising and stores both
values. -/
theorem C5_no_validation (n : Int) (p : Rat) :
    ∃ env, EnvironmentBase.init n p = Except.ok env ∧
      env.n_var = n ∧ env.process_noise = p :=
  ⟨⟨n, p⟩, rfl, rfl, rfl⟩

/-- Claim C6: `sample_init_states` is deterministic in its inputs — for any
concrete sampler satisfying the contract's purity requirement, two successive
calls with the same `batch_size` and `key` (the second call seeing whatever
hidden generator state the first call left behind) return identical
batches. -/
theorem C6_sample_deterministic (s : ConcreteSampler) (h : s.Pure)
    (batch_size : Int) (key : PRNGKey) (g : Nat) :
    (s.sample batch_size key ((s.sample batch_size key g).2)).1 =
      (s.sample batch_size key g).1 :=
  (h batch_size key ((s.sample batch_size key g).2) g).1

/-- Witness for C6: the concrete sampler `constSampler` satisfies the purity
contract, and its two successive calls at `batch_size = 5`, `key = 42` from
hidden state `0` return identical batches. -/
theorem C6_sample_deterministic_witness :
    constSampler.Pure ∧
    (constSampler.sample 5 42 ((constSampler.sample 5 42 0).2)).1 =
      (constSampler.sample 5 42 0).1 :=
  ⟨fun batch_size key g g2 => ⟨rfl, rfl⟩,
    C6_sample_deterministic constSampler
      (fun batch_size key g g2 => ⟨rfl, rfl⟩) 5 42 0⟩

/-- Claim C7: every call on the base contract is atomic with respect to
failure — each of the four methods either fully succeeds with a well-formed
result or fails with the error propagated immediately, and in both cases the
whole outcome (result and post-state) is a single pair whose post-state equals
the pre-state, so the configuration is left unchanged and there is no
partial-failure state and no internal retry. -/
theorem C7_calls_atomic (env : EnvironmentBase)
    (batch_size : Int) (key : PRNGKey) (t : Rat) (state args : List Rat)
    {S K : Type} (st : S) (kw : K) :
    env.sample_init_states batch_size key =
      (Except.error PyError.notImplementedError, env) ∧
    env.drift t state args = (Except.error PyError.notImplementedError, env) ∧
    env.diffusion t state args =
      (Except.error PyError.notImplementedError, env) ∧
    env.terminate_event st kw = (Except.ok false, env) :=
  ⟨rfl, rfl, rfl, rfl⟩

/-- Claim C8: the base contract itself cannot be constructed — because
`EnvironmentBase` has a nonempty set of abstract methods, any attempt to
instantiate it directly fails at construction time with a `TypeError`, for
every argument pair. -/
theorem C8_base_not_instantiable (n : Int) (p : Rat) :
    EnvironmentBase.instantiate n p = Except.error (PyError.typeError
      "Cannot instantiate abstract class EnvironmentBase with abstract methods diffusion, drift, sample_init_states") ∧
    EnvironmentBase.abstractmethods.isEmpty = false :=
  ⟨rfl, rfl⟩

/-- Claim C9: the default `terminate_event` is total and inspects nothing —
for every state argument of any type (hence any shape or length, including
lengths differing from `n_var`) and every keyword-argument value of any type,
the call never raises (its outcome is `Except.ok`) and its result coincides
with the result at any other environment, state, and keyword arguments. -/
theorem C9_terminate_total_constant (env env2 : EnvironmentBase)
    {S S2 K K2 : Type} (state : S) (state2 : S2) (kwargs : K) (kwargs2 : K2) :
    (env.terminate_event state kwargs).1 = Except.ok false ∧
    (env.terminate_event state kwargs).1 =
      (env2.terminate_event state2 kwargs2).1 :=
  ⟨rfl, rfl⟩

/-- Claim C10: construction has no effect beyond storing configuration — the
`__init__` body produces exactly the record of its two arguments, untouched
(no copying, coercion, or transformation), and an `EnvironmentBase` consists
of exactly those two fields (every value equals the record rebuilt from its
`n_var` and `process_noise`). -/
theorem C10_init_stores_exactly (n : Int) (p : Rat) :
    EnvironmentBase.init n p = Except.ok (EnvironmentBase.mk n p) ∧
    ∀ e : EnvironmentBase, e = EnvironmentBase.mk e.n_var e.process_noise :=
  ⟨rfl, fun e => rfl⟩
